import Mathlib

/-!
Verification of the NonInferiorityMarginOptimizer pipeline (src/main.py).

The program is a linear pipeline: pick a CSV file, extract the `Dice` column,
compute descriptive statistics, solve for a non-inferiority margin m with
p_value(m) = 0.05 over [0, 1], and report.  We embed it shallowly:

* Python floats are idealised as rationals (ℚ).
* Python exceptions are an explicit `Except PyErr` value; `try/except
  ValueError` is a match that catches only the `valueError` constructor.
* External UI calls (tkinter dialogs) are inputs recorded in `Env`;
  shown dialogs, printed log lines, and the plot are outputs in `RunOutput`.
* External numeric library primitives that have no exact rational form are
  abstract parameters bundled in `NumLib`: the square root used by the
  standard-deviation computation, and the Student-t survival function used by
  `ttest_1samp`.  Everything built on top of them is concrete.
* `scipy.optimize.root_scalar(method=brentq, bracket=[0,1])` is modelled as
  bracket-halving down to scipy's documented default tolerance
  (`xtol = 2e-12`); the returned root is a point of the final sign-changing
  bracket, which is the documented contract of a bracketed root finder.
-/

namespace NIMO

/-- Python exception kinds that src/main.py can raise or catch.  The message
strings follow CPython's texts (apostrophes and quotes elided). -/
inductive PyErr where
  | valueError (msg : String)
  | typeError (msg : String)
  | zeroDivisionError (msg : String)
  deriving DecidableEq, Repr

/-- CPython message for `None - float` (apostrophes elided). -/
def sub_none_msg : String := "unsupported operand type(s) for -: NoneType and float"

/-- CPython message for `float / None` (apostrophes elided). -/
def div_none_msg : String := "unsupported operand type(s) for /: float and NoneType"

/-- CPython message for float division by zero. -/
def zero_div_msg : String := "float division by zero"

/-- CPython message for applying the format spec `.2f` to `None`. -/
def format_none_msg : String := "unsupported format string passed to NoneType.__format__"

/-- The ValueError message raised by `find_non_inferiority_margin` (main.py:47). -/
def no_sign_change_msg : String := "Function does not change signs within the interval [0, 1]"

/-- Modelled from the spec: the tkinter file dialog of `select_file`
(main.py:8-12) is an external UI call; it returns the user's choice,
`none` when the dialog is cancelled. -/
def select_file (choice : Option String) : Option String := choice

/-- Modelled from the spec: `simpledialog.askfloat` of `prompt_for_value`
(main.py:14-18) is an external UI call; it returns the user's numeric
response, `none` when the prompt is cancelled. -/
def prompt_for_value (response : Option ℚ) : Option ℚ := response

/-- Modelled from the spec: `pandas.Series.mean` — the arithmetic mean
(sum over count).  (In ℚ the empty case yields 0 via division by zero.) -/
def pandas_mean (data : List ℚ) : ℚ := data.sum / (data.length : ℚ)

/-- Modelled from the spec: the variance under `pandas.Series.std`, i.e. the
sample variance with denominator n − 1. -/
def sample_variance (data : List ℚ) : ℚ :=
  ((data.map fun x => (x - pandas_mean data) ^ 2).sum) / ((data.length : ℚ) - 1)

/-- Insert into an ascending list (helper for the sort under quantile). -/
def insertAsc (x : ℚ) : List ℚ → List ℚ
  | [] => [x]
  | y :: ys => if x ≤ y then x :: y :: ys else y :: insertAsc x ys

/-- Ascending insertion sort (the sort pandas performs before interpolating
a quantile). -/
def sortAsc (data : List ℚ) : List ℚ := data.foldr insertAsc []

/-- Modelled from the spec: `pandas.Series.quantile` with the default linear
interpolation — sort ascending, take position h = (n−1)·q, and interpolate
linearly between the neighbouring order statistics. -/
def pandas_quantile (data : List ℚ) (q : ℚ) : ℚ :=
  let s := sortAsc data
  let h : ℚ := ((s.length : ℚ) - 1) * q
  let i : ℕ := (⌊h⌋).toNat
  let lo := s.getD i 0
  let hi := s.getD (i + 1) lo
  lo + (h - (i : ℚ)) * (hi - lo)

/-- Modelled from the spec: `pandas.Series.median`, the linearly interpolated
50th percentile. -/
def pandas_median (data : List ℚ) : ℚ := pandas_quantile data (1/2)

/-- The abstract external numeric primitives the program delegates to and that
have no exact rational form: the square root used by `pandas.Series.std`, and
the Student-t survival function `t_sf df x` (the upper-tail probability with
`df` degrees of freedom) underlying `scipy.stats.ttest_1samp` p-values. -/
structure NumLib where
  sqrt : ℚ → ℚ
  t_sf : ℕ → ℚ → ℚ

/-- Modelled from the spec: `pandas.Series.std` — square root of the sample
variance (denominator n − 1). -/
def pandas_std (lib : NumLib) (data : List ℚ) : ℚ := lib.sqrt (sample_variance data)

/-- The tuple returned by `calculate_statistics` (main.py:20-27), with the
source's component names. -/
structure Stats where
  mean : ℚ
  std : ℚ
  median : ℚ
  q1 : ℚ
  q3 : ℚ
  iqr : ℚ
  deriving DecidableEq, Repr

/-- `calculate_statistics` (main.py:20-27): mean, sample standard deviation,
median, linearly interpolated quartiles, and IQR = Q3 − Q1. -/
def calculate_statistics (lib : NumLib) (data : List ℚ) : Stats :=
  let mean := pandas_mean data
  let std := pandas_std lib data
  let median := pandas_median data
  let q1 := pandas_quantile data (1/4)
  let q3 := pandas_quantile data (3/4)
  let iqr := q3 - q1
  { mean := mean, std := std, median := median, q1 := q1, q3 := q3, iqr := iqr }

/-- The `alternative` parameter of `scipy.stats.ttest_1samp`. -/
inductive TailAlternative where
  | twoSided
  | less
  | greater
  deriving DecidableEq, Repr

/-- Modelled from the spec: `scipy.stats.ttest_1samp(a, popmean, alternative)`
— the one-sample Student t test.  Statistic t = (x̄ − popmean)/(s/√n) =
(x̄ − popmean)/√(s²/n); the p-value is the Student-t tail probability with
n − 1 degrees of freedom in the direction of the alternative.  The square
root and the t survival function come from the abstract `NumLib`. -/
def ttest_1samp (lib : NumLib) (a : List ℚ) (popmean : ℚ)
    (alternative : TailAlternative) : ℚ × ℚ :=
  let n : ℚ := (a.length : ℚ)
  let t := (pandas_mean a - popmean) / lib.sqrt (sample_variance a / n)
  let df := a.length - 1
  let p :=
    match alternative with
    | TailAlternative.twoSided => 2 * lib.t_sf df |t|
    | TailAlternative.less => lib.t_sf df (-t)
    | TailAlternative.greater => lib.t_sf df t
  (t, p)

/-- `perform_non_inferiority_test_parametric` (main.py:29-32): threshold =
reference_mean − margin, then the one-sided (greater) one-sample t test.
The reference mean is an optional value because it comes from a cancellable
prompt; in Python, `None - margin` raises a TypeError, which the embedding
makes explicit. -/
def perform_non_inferiority_test_parametric (lib : NumLib) (data : List ℚ)
    (reference_mean : Option ℚ) (non_inferiority_margin : ℚ) :
    Except PyErr (ℚ × ℚ) :=
  match reference_mean with
  | none => Except.error (PyErr.typeError sub_none_msg)
  | some r =>
      let threshold := r - non_inferiority_margin
      Except.ok (ttest_1samp lib data threshold TailAlternative.greater)

/-- scipy's documented default absolute tolerance for `brentq` (2e-12). -/
def brentq_xtol : ℚ := 2 / 10 ^ 12

/-- Number of bracket-halving steps; (1/2)^41 ≤ 2e-12, so the final bracket is
within `brentq_xtol`. -/
def brentq_iters : ℕ := 41

/-- Bracket halving: keep the half of [a, b] across which f changes sign. -/
def bisect (f : ℚ → ℚ) : ℚ → ℚ → ℕ → ℚ × ℚ
  | a, b, 0 => (a, b)
  | a, b, n + 1 =>
      let m := (a + b) / 2
      if f a * f m ≤ 0 then bisect f a m n else bisect f m b n

/-- Bracket halving for an objective that may raise (the objective calls the
test function, which can raise a TypeError on an absent reference mean). -/
def bisectE (f : ℚ → Except PyErr ℚ) : ℚ → ℚ → ℕ → Except PyErr (ℚ × ℚ)
  | a, b, 0 => Except.ok (a, b)
  | a, b, n + 1 =>
      Except.bind (f a) fun fa =>
      Except.bind (f ((a + b) / 2)) fun fm =>
      if fa * fm ≤ 0 then bisectE f a ((a + b) / 2) n
      else bisectE f ((a + b) / 2) b n

/-- Modelled from the spec: `scipy.optimize.root_scalar(f, bracket=[a, b],
method=brentq)` — an external bracketed root finder.  Its contract (a root
bracketed to the default tolerance) is modelled by bracket halving; the
returned `.root` is the midpoint of the final sign-changing bracket. -/
def root_scalar (f : ℚ → Except PyErr ℚ) (a b : ℚ) : Except PyErr ℚ :=
  Except.bind (bisectE f a b brentq_iters) fun p => Except.ok ((p.1 + p.2) / 2)

/-- `find_non_inferiority_margin` (main.py:34-50).  The diagnostic print loop
over margins {0, 0.25, 0.5, 0.75, 1.0} is unrolled; its printed values are
dropped but its evaluation of the objective (and hence any exception it
raises) is kept.  Then f(0)·f(1) > 0 raises the ValueError, else the root
finder runs on the bracket [0, 1]. -/
def find_non_inferiority_margin (data : List ℚ) (reference_value : Option ℚ)
    (test_function : List ℚ → Option ℚ → ℚ → Except PyErr (ℚ × ℚ)) :
    Except PyErr ℚ :=
  let objective_function : ℚ → Except PyErr ℚ := fun margin =>
    Except.bind (test_function data reference_value margin) fun r =>
      Except.ok (r.2 - 1/20)
  Except.bind (objective_function 0) fun _ =>
  Except.bind (objective_function (1/4)) fun _ =>
  Except.bind (objective_function (1/2)) fun _ =>
  Except.bind (objective_function (3/4)) fun _ =>
  Except.bind (objective_function 1) fun _ =>
  Except.bind (objective_function 0) fun f_start =>
  Except.bind (objective_function 1) fun f_end =>
  if f_start * f_end > 0 then
    Except.error (PyErr.valueError no_sign_change_msg)
  else
    root_scalar objective_function 0 1

/-- The percentage line `(margin / reference_mean) * 100` (main.py:92).  The
reference mean is optional (cancellable prompt): dividing by `None` is a
TypeError, dividing by zero is a ZeroDivisionError. -/
def py_div_times100 (x : ℚ) : Option ℚ → Except PyErr ℚ
  | none => Except.error (PyErr.typeError div_none_msg)
  | some d =>
      if d = 0 then Except.error (PyErr.zeroDivisionError zero_div_msg)
      else Except.ok (x / d * 100)

/-- The f-string fragment `{x:.2f}` (main.py:118) applied to an optional
float: formatting `None` with a float format spec raises a TypeError.  The
decimal rendering itself is not modelled; the successfully formatted value is
returned unchanged. -/
def format_fixed2 : Option ℚ → Except PyErr ℚ
  | none => Except.error (PyErr.typeError format_none_msg)
  | some x => Except.ok x

/-- The verdict expression of main.py:121:
`'Pass' if p_value_p is not None and p_value_p < 0.05 else 'Fail'`. -/
def non_inferiority_verdict : Option ℚ → String
  | none => "Fail"
  | some p => if p < 1/20 then "Pass" else "Fail"

/-- The values of the final result message (main.py:110-122), with `None`
fields explicit. -/
structure Report where
  mean : ℚ
  std : ℚ
  median : ℚ
  iqr : ℚ
  reference_median : Option ℚ
  reference_mean : Option ℚ
  margin : Option ℚ
  percentage : Option ℚ
  test_statistic : Option ℚ
  p_value : Option ℚ
  verdict : String
  deriving DecidableEq, Repr

/-- A dialog shown by main: `showinfo`, `showerror`, or the final result
message box. -/
inductive Dialog where
  | info (title message : String)
  | error (title message : String)
  | result (report : Report)
  deriving DecidableEq, Repr

/-- How a run of `main` ends when no exception escapes. -/
inductive MainOutcome where
  | noFile
  | missingColumn
  | finished (report : Report)
  deriving DecidableEq, Repr

/-- Observable behaviour of one run of `main`: dialogs shown, lines printed to
the log stream (the final report is also printed; only the except-branch
diagnostic line is tracked here), whether the histogram was plotted, and
either the outcome or the uncaught Python exception that aborted the run. -/
structure RunOutput where
  dialogs : List Dialog
  log : List String
  plotted : Bool
  result : Except PyErr MainOutcome
  deriving Repr

/-- All external inputs of one run: the file-dialog result, the parsed CSV
(its column names and the `Dice` column cells, missing cells as `none`), and
the two prompt responses (`none` when cancelled). -/
structure Env where
  file_path : Option String
  columns : List String
  dice_column : List (Option ℚ)
  reference_median_response : Option ℚ
  reference_mean_response : Option ℚ

/-- `main` (main.py:64-125).  Mirrors the source: file selection guard, Dice
column guard, dropna, statistics, two prompts, the try/except ValueError
around margin solving and the percentage line, conditional plot, conditional
re-evaluation of the test, and the result message (whose `:.2f` formatting of
the percentage raises a TypeError when the percentage is None). -/
def main (lib : NumLib) (env : Env) : RunOutput :=
  match select_file env.file_path with
  | none =>
      { dialogs := [Dialog.info "Information" "No file selected. Exiting."],
        log := [], plotted := false, result := Except.ok MainOutcome.noFile }
  | some _ =>
      if "Dice" ∉ env.columns then
        { dialogs :=
            [Dialog.error "Error" "Dice column not found in the selected file. Exiting."],
          log := [], plotted := false, result := Except.ok MainOutcome.missingColumn }
      else
        let dice_data : List ℚ := env.dice_column.filterMap id
        let stats := calculate_statistics lib dice_data
        let reference_median := prompt_for_value env.reference_median_response
        let reference_mean := prompt_for_value env.reference_mean_response
        let try_body : Except PyErr (ℚ × ℚ) :=
          Except.bind
            (find_non_inferiority_margin dice_data reference_mean
              (perform_non_inferiority_test_parametric lib)) fun m =>
          Except.bind (py_div_times100 m reference_mean) fun pct =>
          Except.ok (m, pct)
        let rest : Option ℚ → Option ℚ → List String → RunOutput :=
          fun non_inferiority_margin_p non_inferiority_percentage_p log0 =>
            let plotted := non_inferiority_margin_p.isSome
            let finish : Option ℚ → Option ℚ → RunOutput :=
              fun test_statistic_p p_value_p =>
                match format_fixed2 non_inferiority_percentage_p with
                | Except.error e =>
                    { dialogs := [], log := log0, plotted := plotted,
                      result := Except.error e }
                | Except.ok _ =>
                    let report : Report :=
                      { mean := stats.mean, std := stats.std, median := stats.median,
                        iqr := stats.iqr, reference_median := reference_median,
                        reference_mean := reference_mean,
                        margin := non_inferiority_margin_p,
                        percentage := non_inferiority_percentage_p,
                        test_statistic := test_statistic_p, p_value := p_value_p,
                        verdict := non_inferiority_verdict p_value_p }
                    { dialogs := [Dialog.result report], log := log0,
                      plotted := plotted,
                      result := Except.ok (MainOutcome.finished report) }
            match non_inferiority_margin_p with
            | some m =>
                match perform_non_inferiority_test_parametric lib dice_data
                    reference_mean m with
                | Except.error e =>
                    { dialogs := [], log := log0, plotted := plotted,
                      result := Except.error e }
                | Except.ok tsv => finish (some tsv.1) (some tsv.2)
            | none => finish none none
        match try_body with
        | Except.ok mp => rest (some mp.1) (some mp.2) []
        | Except.error (PyErr.valueError msg) =>
            rest none none
              [s!"Failed to find non-inferiority margin for parametric test: {msg}"]
        | Except.error e =>
            { dialogs := [], log := [], plotted := false, result := Except.error e }

/-! ### Concrete run fixtures used by the witnesses -/

/-- A library whose t test always returns p = 1/2: the objective is 0.45
everywhere, so the margin solver finds no sign change. -/
def lib_c1 : NumLib := { sqrt := fun _ => 1, t_sf := fun _ _ => 1/2 }

/-- A run on Dice = [1] with both prompts answered 1. -/
def env_c1 : Env :=
  { file_path := some "dice.csv"
    columns := ["Dice"]
    dice_column := [some 1]
    reference_median_response := some 1
    reference_mean_response := some 1 }

/-- A library whose t survival function is 1 − t: on Dice = [0] with reference
mean 1 the p-value at margin m is 1 − m, which crosses 0.05 inside [0, 1]. -/
def lib_c5 : NumLib := { sqrt := fun _ => 1, t_sf := fun _ x => -x }

/-- A run on Dice = [0] with both prompts answered 1; the margin solve
succeeds. -/
def env_c5 : Env :=
  { file_path := some "dice.csv"
    columns := ["Dice"]
    dice_column := [some 0]
    reference_median_response := some 1
    reference_mean_response := some 1 }

/-- The margin the solver returns in the `env_c5` run: the midpoint of the
final bracket. -/
def margin_c5 : ℚ :=
  ((bisect
      (fun mm =>
        (ttest_1samp lib_c5 (env_c5.dice_column.filterMap id) (1 - mm)
            TailAlternative.greater).2 - 1/20)
      0 1 brentq_iters).1 +
   (bisect
      (fun mm =>
        (ttest_1samp lib_c5 (env_c5.dice_column.filterMap id) (1 - mm)
            TailAlternative.greater).2 - 1/20)
      0 1 brentq_iters).2) / 2

/-- The report the `env_c5` run produces. -/
def rep_c5 : Report :=
  { mean := (calculate_statistics lib_c5 (env_c5.dice_column.filterMap id)).mean
    std := (calculate_statistics lib_c5 (env_c5.dice_column.filterMap id)).std
    median := (calculate_statistics lib_c5 (env_c5.dice_column.filterMap id)).median
    iqr := (calculate_statistics lib_c5 (env_c5.dice_column.filterMap id)).iqr
    reference_median := some 1
    reference_mean := some 1
    margin := some margin_c5
    percentage := some (margin_c5 / 1 * 100)
    test_statistic :=
      some (ttest_1samp lib_c5 (env_c5.dice_column.filterMap id) (1 - margin_c5)
        TailAlternative.greater).1
    p_value :=
      some (ttest_1samp lib_c5 (env_c5.dice_column.filterMap id) (1 - margin_c5)
        TailAlternative.greater).2
    verdict :=
      non_inferiority_verdict
        (some (ttest_1samp lib_c5 (env_c5.dice_column.filterMap id) (1 - margin_c5)
          TailAlternative.greater).2) }

/-- Library for the cancelled-reference-mean run. -/
def lib_c7 : NumLib := { sqrt := fun _ => 1, t_sf := fun _ _ => 1/2 }

/-- A run whose reference-mean prompt is cancelled. -/
def env_c7 : Env :=
  { file_path := some "dice.csv"
    columns := ["Dice"]
    dice_column := [some 1]
    reference_median_response := some 1
    reference_mean_response := none }

/-- A library whose t survival function is 1 − t: with reference mean 0 on
Dice = [0], the solver finds a margin, after which the percentage divides
by zero. -/
def lib_c8 : NumLib := { sqrt := fun _ => 1, t_sf := fun _ x => 1 - x }

/-- A run whose reference mean is entered as 0. -/
def env_c8 : Env :=
  { file_path := some "dice.csv"
    columns := ["Dice"]
    dice_column := [some 0]
    reference_median_response := some 1
    reference_mean_response := some 0 }

/-- Library for the guarded-early-exit runs. -/
def lib_c9 : NumLib := { sqrt := fun _ => 1, t_sf := fun _ _ => 1 }

/-- A run where the file dialog is cancelled. -/
def env_c9a : Env :=
  { file_path := none
    columns := []
    dice_column := []
    reference_median_response := none
    reference_mean_response := none }

/-- A run on a file with no Dice column. -/
def env_c9b : Env :=
  { file_path := some "other.csv"
    columns := ["Score"]
    dice_column := []
    reference_median_response := none
    reference_mean_response := none }

/-- Library for the determinism witness. -/
def lib_c10 : NumLib := { sqrt := fun _ => 0, t_sf := fun _ _ => 0 }

/-- Environment for the determinism witness. -/
def env_c10 : Env :=
  { file_path := some "dice.csv"
    columns := ["Dice"]
    dice_column := [some 1, none, some 0]
    reference_median_response := some 1
    reference_mean_response := some 1 }

/-! ### Helper lemmas -/

theorem except_ok_bind {α β : Type} (a : α) (f : α → Except PyErr β) :
    Except.bind (Except.ok a) f = f a := rfl

theorem except_error_bind {α β : Type} (e : PyErr) (f : α → Except PyErr β) :
    Except.bind (Except.error e : Except PyErr α) f = Except.error e := rfl

/-- Bracket halving of a non-raising objective never raises and agrees with
the pure bracket halving. -/
theorem bisectE_ok (f : ℚ → Except PyErr ℚ) (g : ℚ → ℚ)
    (hf : ∀ x, f x = Except.ok (g x)) :
    ∀ (n : ℕ) (a b : ℚ), bisectE f a b n = Except.ok (bisect g a b n) := by
  intro n
  induction n with
  | zero => intro a b; rfl
  | succ n ih =>
      intro a b
      simp only [bisectE, bisect, hf, except_ok_bind]
      by_cases h : g a * g ((a + b) / 2) ≤ 0
      · rw [if_pos h, if_pos h]
        exact ih a ((a + b) / 2)
      · rw [if_neg h, if_neg h]
        exact ih ((a + b) / 2) b

/-- Invariant of bracket halving: the bracket shrinks geometrically, stays
inside the initial bracket, and keeps a sign change of f across it. -/
theorem bisect_bracket (f : ℚ → ℚ) :
    ∀ (n : ℕ) (a b : ℚ), a ≤ b → f a * f b ≤ 0 →
      a ≤ (bisect f a b n).1 ∧ (bisect f a b n).1 ≤ (bisect f a b n).2 ∧
      (bisect f a b n).2 ≤ b ∧
      (bisect f a b n).2 - (bisect f a b n).1 = (b - a) / 2 ^ n ∧
      f (bisect f a b n).1 * f (bisect f a b n).2 ≤ 0 := by
  intro n
  induction n with
  | zero =>
      intro a b hab hsign
      exact ⟨le_refl a, hab, le_refl b, by show b - a = (b - a) / 2 ^ 0; norm_num, hsign⟩
  | succ n ih =>
      intro a b hab hsign
      have hm1 : a ≤ (a + b) / 2 := by linarith
      have hm2 : (a + b) / 2 ≤ b := by linarith
      simp only [bisect]
      by_cases hc : f a * f ((a + b) / 2) ≤ 0
      · rw [if_pos hc]
        obtain ⟨h1, h2, h3, h4, h5⟩ := ih a ((a + b) / 2) hm1 hc
        refine ⟨h1, h2, le_trans h3 hm2, ?_, h5⟩
        rw [h4, pow_succ]
        ring
      · rw [if_neg hc]
        push_neg at hc
        have hfa : f a ≠ 0 := by
          intro h0
          rw [h0, zero_mul] at hc
          exact lt_irrefl 0 hc
        have hmb : f ((a + b) / 2) * f b ≤ 0 := by
          rcases lt_or_gt_of_ne hfa with hneg | hpos
          · have hfm : f ((a + b) / 2) < 0 := by nlinarith
            have hfb : 0 ≤ f b := by nlinarith
            exact mul_nonpos_iff.mpr (Or.inr ⟨le_of_lt hfm, hfb⟩)
          · have hfm : 0 < f ((a + b) / 2) := by nlinarith
            have hfb : f b ≤ 0 := by nlinarith
            exact mul_nonpos_iff.mpr (Or.inl ⟨le_of_lt hfm, hfb⟩)
        obtain ⟨h1, h2, h3, h4, h5⟩ := ih ((a + b) / 2) b hm2 hmb
        refine ⟨le_trans hm1 h1, h2, h3, ?_, h5⟩
        rw [h4, pow_succ]
        ring

/-- When the test function does not raise on the given data and reference
value and the objective products at the endpoints show a sign change, the
margin solver returns the midpoint of the final bracket. -/
theorem find_eval_ok (data : List ℚ) (r : Option ℚ)
    (tf : List ℚ → Option ℚ → ℚ → Except PyErr (ℚ × ℚ)) (g : ℚ → ℚ × ℚ)
    (htf : ∀ mm, tf data r mm = Except.ok (g mm))
    (hsign : ¬ ((g 0).2 - 1/20) * ((g 1).2 - 1/20) > 0) :
    find_non_inferiority_margin data r tf =
      Except.ok
        (((bisect (fun mm => (g mm).2 - 1/20) 0 1 brentq_iters).1 +
          (bisect (fun mm => (g mm).2 - 1/20) 0 1 brentq_iters).2) / 2) := by
  unfold find_non_inferiority_margin root_scalar
  simp only [htf, except_ok_bind]
  rw [if_neg hsign]
  rw [bisectE_ok (fun margin => Except.ok ((g margin).2 - 1/20))
      (fun mm => (g mm).2 - 1/20) (fun x => rfl) brentq_iters 0 1]
  rfl

/-- When the test function does not raise but the objective has the same sign
at both endpoints, the margin solver raises its ValueError. -/
theorem find_eval_error (data : List ℚ) (r : Option ℚ)
    (tf : List ℚ → Option ℚ → ℚ → Except PyErr (ℚ × ℚ)) (g : ℚ → ℚ × ℚ)
    (htf : ∀ mm, tf data r mm = Except.ok (g mm))
    (hsign : ((g 0).2 - 1/20) * ((g 1).2 - 1/20) > 0) :
    find_non_inferiority_margin data r tf =
      Except.error (PyErr.valueError no_sign_change_msg) := by
  unfold find_non_inferiority_margin
  simp only [htf, except_ok_bind]
  rw [if_pos hsign]

/-! ### Claim theorems -/

/-- C2: for every sample, reference value, and non-raising test function, the
margin solver raises the ValueError with the no-sign-change message exactly
when objective(0) · objective(1) > 0 (objective = p-value − 0.05); a product
that is zero or negative yields a returned root instead, and in the
same-sign case no root value is ever returned. -/
theorem find_margin_valueError_iff_no_sign_change
    (g : List ℚ → Option ℚ → ℚ → ℚ × ℚ) (data : List ℚ) (r : Option ℚ) :
    (find_non_inferiority_margin data r (fun d rv mm => Except.ok (g d rv mm)) =
        Except.error (PyErr.valueError no_sign_change_msg) ↔
      ((g data r 0).2 - 1/20) * ((g data r 1).2 - 1/20) > 0) ∧
    (((g data r 0).2 - 1/20) * ((g data r 1).2 - 1/20) ≤ 0 →
      ∃ m, find_non_inferiority_margin data r
        (fun d rv mm => Except.ok (g d rv mm)) = Except.ok m) ∧
    (((g data r 0).2 - 1/20) * ((g data r 1).2 - 1/20) > 0 →
      ∀ m, find_non_inferiority_margin data r
        (fun d rv mm => Except.ok (g d rv mm)) ≠ Except.ok m) := by
  refine ⟨⟨?_, ?_⟩, ?_, ?_⟩
  · intro hfind
    by_contra hng
    rw [find_eval_ok data r _ (fun mm => g data r mm) (fun mm => rfl) hng] at hfind
    exact Except.noConfusion hfind
  · intro hgt
    exact find_eval_error data r _ (fun mm => g data r mm) (fun mm => rfl) hgt
  · intro hle
    exact ⟨_, find_eval_ok data r _ (fun mm => g data r mm) (fun mm => rfl)
      (not_lt.mpr hle)⟩
  · intro hgt m hok
    rw [find_eval_error data r _ (fun mm => g data r mm) (fun mm => rfl) hgt] at hok
    exact Except.noConfusion hok

/-- Witness for C2: with a test function whose p-value is constantly 1/2, the
product of the endpoint objectives is (0.45)² > 0 and the solver raises the
documented ValueError. -/
theorem find_margin_valueError_iff_no_sign_change_witness :
    find_non_inferiority_margin [1] none
        (fun _ _ _ => Except.ok ((0 : ℚ), (1 : ℚ)/2)) =
      Except.error (PyErr.valueError no_sign_change_msg) :=
  ((find_margin_valueError_iff_no_sign_change
      (fun _ _ _ => ((0 : ℚ), (1 : ℚ)/2)) [1] none).1).mpr (by norm_num)

/-- C4: for every library, sample, reference mean r, and margin m, the
parametric test computes the threshold t = r − m and returns the pair
(statistic, p-value) of the one-sample Student t test against t with the
one-sided greater alternative: the statistic is (x̄ − t)/√(s²/n) and the
p-value is the t survival function at the statistic with n − 1 degrees of
freedom. -/
theorem perform_parametric_test_threshold (lib : NumLib) (data : List ℚ)
    (r m : ℚ) :
    perform_non_inferiority_test_parametric lib data (some r) m =
      Except.ok (ttest_1samp lib data (r - m) TailAlternative.greater) ∧
    (ttest_1samp lib data (r - m) TailAlternative.greater).1 =
      (pandas_mean data - (r - m)) /
        lib.sqrt (sample_variance data / (data.length : ℚ)) ∧
    (ttest_1samp lib data (r - m) TailAlternative.greater).2 =
      lib.t_sf (data.length - 1)
        ((pandas_mean data - (r - m)) /
          lib.sqrt (sample_variance data / (data.length : ℚ))) :=
  ⟨rfl, rfl, rfl⟩

/-- C6: the descriptive statistics are the arithmetic mean, the sample
standard deviation with denominator n − 1 (square root of the explicit
sum-of-squared-deviations formula), the interpolated median and quartiles,
and IQR = Q3 − Q1; on the integers 1..9 the values are exactly
mean 5, variance 60/8 = 15/2 under the root, median 5, Q1 3, Q3 7, IQR 4. -/
theorem calculate_statistics_correct (lib : NumLib) :
    (∀ data : List ℚ,
      (calculate_statistics lib data).mean = data.sum / (data.length : ℚ) ∧
      (calculate_statistics lib data).std =
        lib.sqrt
          (((data.map fun x => (x - data.sum / (data.length : ℚ)) ^ 2).sum) /
            ((data.length : ℚ) - 1)) ∧
      (calculate_statistics lib data).median = pandas_quantile data (1/2) ∧
      (calculate_statistics lib data).q1 = pandas_quantile data (1/4) ∧
      (calculate_statistics lib data).q3 = pandas_quantile data (3/4) ∧
      (calculate_statistics lib data).iqr =
        (calculate_statistics lib data).q3 - (calculate_statistics lib data).q1) ∧
    calculate_statistics lib [1, 2, 3, 4, 5, 6, 7, 8, 9] =
      { mean := 5, std := lib.sqrt (15/2), median := 5, q1 := 3, q3 := 7,
        iqr := 4 } := by
  constructor
  · intro data
    exact ⟨rfl, rfl, rfl, rfl, rfl, rfl⟩
  · have hmean : pandas_mean [(1 : ℚ), 2, 3, 4, 5, 6, 7, 8, 9] = 5 := by
      norm_num [pandas_mean]
    have hvar : sample_variance [(1 : ℚ), 2, 3, 4, 5, 6, 7, 8, 9] = 15/2 := by
      norm_num [sample_variance, pandas_mean]
    have hmed : pandas_median [(1 : ℚ), 2, 3, 4, 5, 6, 7, 8, 9] = 5 := by
      norm_num [pandas_median, pandas_quantile, sortAsc, insertAsc, Int.toNat]
    have hq1 : pandas_quantile [(1 : ℚ), 2, 3, 4, 5, 6, 7, 8, 9] (1/4) = 3 := by
      norm_num [pandas_quantile, sortAsc, insertAsc, Int.toNat]
    have hq3 : pandas_quantile [(1 : ℚ), 2, 3, 4, 5, 6, 7, 8, 9] (3/4) = 7 := by
      norm_num [pandas_quantile, sortAsc, insertAsc, Int.toNat]
    simp only [calculate_statistics, pandas_std, hmean, hvar, hmed, hq1, hq3]
    norm_num

/-- C9: the two guarded early exits — cancelled file dialog, and a table with
no Dice column — each show exactly one dialog (informational resp. error),
return the corresponding nominal outcome with no exception, and compute no
statistics, margin, or report. -/
theorem guarded_early_exits_clean (lib : NumLib) (env : Env) :
    (env.file_path = none →
      main lib env =
        { dialogs := [Dialog.info "Information" "No file selected. Exiting."],
          log := [], plotted := false, result := Except.ok MainOutcome.noFile }) ∧
    (∀ s : String, env.file_path = some s → "Dice" ∉ env.columns →
      main lib env =
        { dialogs := [Dialog.error "Error"
            "Dice column not found in the selected file. Exiting."],
          log := [], plotted := false,
          result := Except.ok MainOutcome.missingColumn }) := by
  constructor
  · intro h
    simp only [main, select_file, h]
  · intro s h hcol
    simp only [main, select_file, h]
    rw [if_pos hcol]

/-- Witness for C9: a run with the file dialog cancelled, and a run on a file
whose only column is Score. -/
theorem guarded_early_exits_clean_witness :
    main lib_c9 env_c9a =
      { dialogs := [Dialog.info "Information" "No file selected. Exiting."],
        log := [], plotted := false, result := Except.ok MainOutcome.noFile } ∧
    main lib_c9 env_c9b =
      { dialogs := [Dialog.error "Error"
          "Dice column not found in the selected file. Exiting."],
        log := [], plotted := false,
        result := Except.ok MainOutcome.missingColumn } :=
  ⟨(guarded_early_exits_clean lib_c9 env_c9a).1 rfl,
   (guarded_early_exits_clean lib_c9 env_c9b).2 "other.csv" rfl (by decide)⟩

/-- C10: the pipeline is deterministic — two runs with identical file
contents and identical responses to the user prompts produce identical
outputs (statistics, margin, percentage, test results, verdict, dialogs,
log). -/
theorem pipeline_deterministic (lib : NumLib) (env1 env2 : Env)
    (h : env1 = env2) : main lib env1 = main lib env2 := by
  rw [h]

/-- Witness for C10: two identical concrete runs coincide. -/
theorem pipeline_deterministic_witness :
    main lib_c10 env_c10 = main lib_c10 env_c10 :=
  pipeline_deterministic lib_c10 env_c10 env_c10 rfl

/-- C3: whenever the objective p(m) − 0.05 has a sign change over [0, 1]
(product of the endpoint values ≤ 0), the solver returns a margin inside a
sub-bracket of [0, 1] of width at most the default tolerance across which the
objective still changes sign; in particular, for the synthetic test whose
p-value is exactly 0.5 − 0.5m, the returned margin is 0.9 to within that
tolerance. -/
theorem find_margin_returns_bracketed_root :
    (∀ (g : List ℚ → Option ℚ → ℚ → ℚ × ℚ) (data : List ℚ) (r : Option ℚ),
      ((g data r 0).2 - 1/20) * ((g data r 1).2 - 1/20) ≤ 0 →
      ∃ m lo hi : ℚ,
        find_non_inferiority_margin data r
          (fun d rv mm => Except.ok (g d rv mm)) = Except.ok m ∧
        0 ≤ lo ∧ lo ≤ m ∧ m ≤ hi ∧ hi ≤ 1 ∧ hi - lo ≤ brentq_xtol ∧
        ((g data r lo).2 - 1/20) * ((g data r hi).2 - 1/20) ≤ 0) ∧
    (∀ (data : List ℚ) (r : Option ℚ),
      ∃ m : ℚ,
        find_non_inferiority_margin data r
          (fun _ _ mm => Except.ok ((0 : ℚ), 1/2 - mm/2)) = Except.ok m ∧
        |m - 9/10| ≤ brentq_xtol) := by
  have hgen : ∀ (g : List ℚ → Option ℚ → ℚ → ℚ × ℚ) (data : List ℚ)
      (r : Option ℚ),
      ((g data r 0).2 - 1/20) * ((g data r 1).2 - 1/20) ≤ 0 →
      ∃ m lo hi : ℚ,
        find_non_inferiority_margin data r
          (fun d rv mm => Except.ok (g d rv mm)) = Except.ok m ∧
        0 ≤ lo ∧ lo ≤ m ∧ m ≤ hi ∧ hi ≤ 1 ∧ hi - lo ≤ brentq_xtol ∧
        ((g data r lo).2 - 1/20) * ((g data r hi).2 - 1/20) ≤ 0 := by
    intro g data r hle
    obtain ⟨h1, h2, h3, h4, h5⟩ :=
      bisect_bracket (fun mm => (g data r mm).2 - 1/20) brentq_iters 0 1
        (by norm_num) hle
    refine ⟨_, (bisect (fun mm => (g data r mm).2 - 1/20) 0 1 brentq_iters).1,
      (bisect (fun mm => (g data r mm).2 - 1/20) 0 1 brentq_iters).2,
      find_eval_ok data r _ (fun mm => g data r mm) (fun mm => rfl)
        (not_lt.mpr hle),
      h1, ?_, ?_, h3, ?_, h5⟩
    · linarith
    · linarith
    · rw [h4]
      norm_num [brentq_xtol, brentq_iters]
  refine ⟨hgen, ?_⟩
  intro data r
  obtain ⟨m, lo, hi, hfind, h0lo, hlom, hmhi, hhi1, hwidth, hsign⟩ :=
    hgen (fun _ _ mm => ((0 : ℚ), 1/2 - mm/2)) data r (by norm_num)
  refine ⟨m, hfind, ?_⟩
  have hx : (0 : ℚ) < brentq_xtol := by norm_num [brentq_xtol]
  rw [abs_le]
  norm_num at hsign
  rcases mul_nonpos_iff.mp hsign with ⟨ha, hb⟩ | ⟨ha, hb⟩
  · constructor <;> linarith
  · constructor <;> linarith

/-- Witness for C3: the solver applied to the synthetic test function with a
sign change over [0, 1] returns a margin in a tolerance-wide sign-changing
sub-bracket. -/
theorem find_margin_returns_bracketed_root_witness :
    ∃ m lo hi : ℚ,
      find_non_inferiority_margin [] none
        (fun _ _ mm => Except.ok ((0 : ℚ), 1/2 - mm/2)) = Except.ok m ∧
      0 ≤ lo ∧ lo ≤ m ∧ m ≤ hi ∧ hi ≤ 1 ∧ hi - lo ≤ brentq_xtol ∧
      (((0 : ℚ), 1/2 - lo/2).2 - 1/20) * (((0 : ℚ), 1/2 - hi/2).2 - 1/20) ≤ 0 :=
  find_margin_returns_bracketed_root.1 (fun _ _ mm => ((0 : ℚ), 1/2 - mm/2))
    [] none (by norm_num)

/-- C7: when the reference-mean prompt is cancelled, the absent value flows
into the hypothesis-test function, whose threshold subtraction raises a
TypeError; the except-ValueError handler does not catch it, so the run aborts
with that TypeError (no dialog, no log line, no report). -/
theorem cancelled_reference_mean_uncaught_typeError (lib : NumLib) (env : Env)
    (s : String) (h1 : env.file_path = some s) (h2 : "Dice" ∈ env.columns)
    (h3 : env.reference_mean_response = none) :
    main lib env =
      { dialogs := [], log := [], plotted := false,
        result := Except.error (PyErr.typeError sub_none_msg) } := by
  simp only [main, select_file, prompt_for_value, h1, h3]
  rw [if_neg (not_not_intro h2)]
  simp only [find_non_inferiority_margin, perform_non_inferiority_test_parametric,
    except_error_bind, except_ok_bind]

/-- Witness for C7: a concrete run whose reference-mean prompt is cancelled
aborts with the TypeError. -/
theorem cancelled_reference_mean_uncaught_typeError_witness :
    main lib_c7 env_c7 =
      { dialogs := [], log := [], plotted := false,
        result := Except.error (PyErr.typeError sub_none_msg) } :=
  cancelled_reference_mean_uncaught_typeError lib_c7 env_c7 "dice.csv" rfl
    (by decide) rfl

/-- C8: when the margin solve succeeds (objective sign change present) and
the user-entered reference mean is 0, the percentage computation divides by
zero; the ZeroDivisionError is not caught by the except-ValueError handler
and the run aborts. -/
theorem zero_reference_mean_uncaught_zeroDivision (lib : NumLib) (env : Env)
    (s : String) (h1 : env.file_path = some s) (h2 : "Dice" ∈ env.columns)
    (h3 : env.reference_mean_response = some 0)
    (h4 : ((ttest_1samp lib (env.dice_column.filterMap id) (0 - 0)
            TailAlternative.greater).2 - 1/20) *
          ((ttest_1samp lib (env.dice_column.filterMap id) (0 - 1)
            TailAlternative.greater).2 - 1/20) ≤ 0) :
    main lib env =
      { dialogs := [], log := [], plotted := false,
        result := Except.error (PyErr.zeroDivisionError zero_div_msg) } := by
  have heval := find_eval_ok (env.dice_column.filterMap id) (some 0)
      (perform_non_inferiority_test_parametric lib)
      (fun mm => ttest_1samp lib (env.dice_column.filterMap id) (0 - mm)
        TailAlternative.greater)
      (fun mm => rfl) (not_lt.mpr h4)
  simp only [main, select_file, prompt_for_value, h1, h3]
  rw [if_neg (not_not_intro h2)]
  rw [heval]
  simp only [except_ok_bind, py_div_times100, if_pos (Eq.refl (0 : ℚ)),
    eq_self_iff_true, if_true, except_error_bind]

/-- Witness for C8: a concrete run with reference mean 0 and a successful
margin solve aborts with the ZeroDivisionError. -/
theorem zero_reference_mean_uncaught_zeroDivision_witness :
    main lib_c8 env_c8 =
      { dialogs := [], log := [], plotted := false,
        result := Except.error (PyErr.zeroDivisionError zero_div_msg) } :=
  zero_reference_mean_uncaught_zeroDivision lib_c8 env_c8 "dice.csv" rfl
    (by decide) rfl
    (by norm_num [ttest_1samp, env_c8, lib_c8, pandas_mean, sample_variance,
      List.filterMap_cons, List.filterMap_nil])

/-- C1 (code bug): when the margin solver raises its no-sign-change
ValueError, main catches it at the call site, sets margin and percentage to
the absent value, and prints the diagnostic line — but then building the
report applies the fixed-point format to the absent percentage, which raises
a TypeError that escapes the except-ValueError handler, so the run aborts
instead of displaying the report with absent fields. -/
theorem margin_not_found_report_formatting_crash :
    main lib_c1 env_c1 =
      { dialogs := [],
        log := ["Failed to find non-inferiority margin for parametric test: Function does not change signs within the interval [0, 1]"],
        plotted := false,
        result := Except.error (PyErr.typeError format_none_msg) } := by
  have herr := find_eval_error (List.filterMap id [some (1 : ℚ)]) (some 1)
      (perform_non_inferiority_test_parametric lib_c1)
      (fun mm => ttest_1samp lib_c1 (List.filterMap id [some (1 : ℚ)]) (1 - mm)
        TailAlternative.greater)
      (fun mm => rfl)
      (by norm_num [ttest_1samp, lib_c1, pandas_mean, sample_variance,
        List.filterMap_cons, List.filterMap_nil])
  simp only [main, env_c1, select_file, prompt_for_value]
  rw [herr]
  simp only [except_error_bind, format_fixed2]
  rfl

/-- C5: the verdict is the literal Pass exactly when the p-value is present
and strictly below 0.05; a p-value of exactly 0.05 and an absent p-value
both yield Fail; and every report main finishes with carries a verdict equal
to this gate applied to its own p-value field. -/
theorem report_verdict_gate :
    (∀ p : ℚ, non_inferiority_verdict (some p) = "Pass" ↔ p < 1/20) ∧
    non_inferiority_verdict (some (1/20)) = "Fail" ∧
    non_inferiority_verdict none = "Fail" ∧
    (∀ (lib : NumLib) (env : Env) (rep : Report),
      (main lib env).result = Except.ok (MainOutcome.finished rep) →
      rep.verdict = non_inferiority_verdict rep.p_value) := by
  refine ⟨?_, ?_, ?_, ?_⟩
  · intro p
    by_cases h : p < 1/20
    · simp only [non_inferiority_verdict, if_pos h]
      exact iff_of_true trivial h
    · simp only [non_inferiority_verdict, if_neg h]
      exact iff_of_false (by decide) h
  · simp only [non_inferiority_verdict]
    rw [if_neg (by norm_num : ¬ (1/20 : ℚ) < 1/20)]
  · rfl
  · intro lib env rep h
    simp only [main] at h
    split at h
    · simp at h
    · split at h
      · simp at h
      · split at h
        · split at h
          · simp at h
          · simp only [format_fixed2] at h
            simp at h
            subst h
            rfl
        · simp only [format_fixed2] at h
          simp at h
        · simp at h

/-- Witness for C5: a p-value of 1/25 passes the gate, and a concrete
finished run carries a verdict equal to the gate of its p-value. -/
theorem report_verdict_gate_witness :
    non_inferiority_verdict (some (1/25)) = "Pass" ∧
    (main lib_c5 env_c5).result = Except.ok (MainOutcome.finished rep_c5) ∧
    rep_c5.verdict = non_inferiority_verdict rep_c5.p_value := by
  have heval := find_eval_ok (List.filterMap id [some (0 : ℚ)]) (some 1)
      (perform_non_inferiority_test_parametric lib_c5)
      (fun mm => ttest_1samp lib_c5 (List.filterMap id [some (0 : ℚ)]) (1 - mm)
        TailAlternative.greater)
      (fun mm => rfl)
      (by norm_num [ttest_1samp, lib_c5, pandas_mean, sample_variance,
        List.filterMap_cons, List.filterMap_nil])
  have h : (main lib_c5 env_c5).result =
      Except.ok (MainOutcome.finished rep_c5) := by
    simp only [main, env_c5, select_file, prompt_for_value]
    rw [heval]
    simp only [except_ok_bind, py_div_times100,
      if_neg (show ¬ (1 : ℚ) = 0 by norm_num),
      perform_non_inferiority_test_parametric, format_fixed2,
      rep_c5, margin_c5, env_c5]
    rw [if_neg (show ¬ "Dice" ∉ ["Dice"] by decide)]
  exact ⟨(report_verdict_gate.1 (1/25)).mpr (by norm_num),
    h, report_verdict_gate.2.2.2 lib_c5 env_c5 rep_c5 h⟩

end NIMO
